import Mathlib

set_option maxRecDepth 8000

/-!
Verification of the VisionAid VTS pipeline (vision_to_speech.py).

The pipeline object VTS holds configuration (API credentials, voice, model,
prompt). Its convert method runs: local existence check of the image file,
read of the image bytes, one vision-service call, one TTS submission, a
bounded polling loop with escalating waits, directory creation and the final
write of the audio bytes.

The embedding is a pure function over an explicit environment Env that fixes
the filesystem and the behaviour of the external services; a raised Python
exception is modelled as an Except.error carrying the exception text, and the
surrounding try/except of convert maps it to the uniform catchAll record.
Every observable side effect of a run (file read, network calls, sleeps,
directory creation, file writes) is recorded in order in a list of Event.
-/

namespace VisionAid

/-- Raw bytes, modelled as a list of natural numbers. -/
abbrev Bytes := List Nat

/-- A filesystem entry: whether the current user may read it, and its
content. os.path.exists sees the entry either way; open succeeds only when
the entry is readable (a directory entry or a permission-protected file
exists but raises on open). -/
structure FileEntry where
  readable : Bool
  content : Bytes
deriving DecidableEq, Repr

/-- An HTTP response as seen through requests.post / requests.get. -/
structure HttpResp where
  status_code : Nat
  content : Bytes
deriving DecidableEq, Repr

/-- The headers sent on the TTS submission request. -/
structure TTSHeaders where
  api_key : String
  speed : String
  voice : String
deriving DecidableEq, Repr

/-- The JSON object of the TTS submission response, as string key-value
pairs; the claims only exercise string values of the async field. -/
abbrev JsonObj := List (String × String)

/-- The TTS submission response: its status code and the result of calling
.json on the body, where Except.error models a raised parse exception. -/
structure TTSResp where
  status_code : Nat
  body : Except String JsonObj

/-- Outcome of opening the output file for writing and writing the bytes:
ok writes the full content; openFail raises before the file is touched;
writeFail raises after open already truncated the file, leaving the given
partial bytes on disk. -/
inductive WriteRes where
  | ok : WriteRes
  | openFail : String → WriteRes
  | writeFail : String → Bytes → WriteRes
deriving DecidableEq, Repr

/-- The observable side effects of one run of convert, in order. -/
inductive Event where
  | readImage : String → Event
  | visionCall : String → String → Bytes → String → Event
  | ttsPostEv : String → TTSHeaders → String → Event
  | sleep : Nat → Event
  | pollGet : String → Event
  | makedirsEv : String → Event
  | fileWrite : String → Bytes → Event
  | fileTruncate : String → Bytes → Event
deriving DecidableEq, Repr

/-- The environment of a run: the filesystem and the behaviour of the
external services. Except.error models a raised exception. poll receives
the attempt index so the oracle can answer differently across successive
attempts on the same URL. -/
structure Env where
  fs : String → Option FileEntry
  vision : String → String → Bytes → String → Except String String
  ttsPost : TTSHeaders → String → Except String TTSResp
  poll : String → Nat → Except String HttpResp
  makedirs : String → Except String Unit
  write : String → Bytes → WriteRes

/-- The VTS pipeline object: configuration state held between runs.
gemini_client stands for genai.Client built from the Gemini API key, so it
carries that credential. -/
structure VTS where
  gemini_client : String
  fpt_api_key : String
  voice : String
  model : String
  prompt : String
deriving DecidableEq, Repr

/-- The default analysis prompt installed by the constructor. -/
def defaultPrompt : String :=
  "\nNhiệm vụ:\n1. Phân loại ảnh thành một trong hai loại:\n   - [Tài liệu]: Nếu bức ảnh là tài liệu/trang giấy → OCR toàn bộ nội dung và format lại nội dung đó cho hoàn chỉnh, chỉnh chu và ngăn nắp, không tóm tắt.\n   - [Ngữ cảnh]: Nếu bức ảnh là cảnh vật/bối cảnh → miêu tả tóm tắt tổng thể.\n\n2. Nếu thể loại là [Ngữ cảnh], hãy kiểm tra và cảnh báo nếu phát hiện VẬT THỂ NGUY HIỂM (ví dụ: lửa, dao, phương tiện đang di chuyển, hố sâu, vũ khí...).\n   - Nếu có nguy hiểm → thêm mục \"⚠️ Cảnh báo: ...\" với nội dung rõ ràng, súc tích.\n   - Nếu không có nguy hiểm → ghi \"Không phát hiện nguy hiểm.\"\n\nFormat trả kết quả:\nThể loại: [Tài liệu hoặc Ngữ cảnh]\nNội dung: <nội dung tương ứng>\n"

/-- VTS.__init__ with the voice argument explicit (its source default is
banmai). -/
def VTS.init (gemini_api_key fpt_api_key voice : String) : VTS :=
  { gemini_client := gemini_api_key, fpt_api_key := fpt_api_key,
    voice := voice, model := "gemini-2.5-flash", prompt := defaultPrompt }

/-- set_voice: change the TTS voice. -/
def VTS.set_voice (s : VTS) (voice : String) : VTS := { s with voice := voice }

/-- set_prompt: change the analysis prompt. -/
def VTS.set_prompt (s : VTS) (prompt : String) : VTS := { s with prompt := prompt }

/-- The result dictionary of convert. A field holds none when the source
branch omits the key or sets it to None. -/
structure ConvertResult where
  success : Bool
  error : Option String
  text_result : Option String
  audio_path : Option String
  audio_url : Option String
  api_response : Option JsonObj
  voice_used : Option String
deriving DecidableEq, Repr

/-- The uniform record built by the except-all handler of convert. -/
def catchAll (e : String) : ConvertResult :=
  { success := false, error := some ("Unexpected error: " ++ e),
    text_result := none, audio_path := none, audio_url := none,
    api_response := none, voice_used := none }

/-- The fixed TTS submission endpoint. -/
def ttsEndpoint : String := "https://api.fpt.ai/hmi/tts/v5"

/-- max_retries of the polling loop. -/
def max_retries : Nat := 3

/-- Python str.strip: drop leading and trailing whitespace. -/
def pyStrip (s : String) : String :=
  String.mk (((s.data.dropWhile Char.isWhitespace).reverse.dropWhile
    Char.isWhitespace).reverse)

/-- Python str.startswith, computed structurally over the character lists. -/
def pyStartsWith (s pre : String) : Bool := pre.data.isPrefixOf s.data

/-- os.path.dirname for POSIX paths: the part before the last slash, with
trailing slashes stripped unless the head is all slashes. -/
def dirname (p : String) : String :=
  let cs := p.data
  let tailLen := (cs.reverse.takeWhile (fun c => c != '/')).length
  let head := cs.take (cs.length - tailLen)
  if head.isEmpty || head.all (fun c => c = '/') then String.mk head
  else String.mk ((head.reverse.dropWhile (fun c => c = '/')).reverse)

/-- Outcome of the polling loop: break with a 200 response, return the
download failure with the last status, or a raised exception. -/
inductive PollOutcome where
  | success : HttpResp → PollOutcome
  | failure : Nat → PollOutcome
  | exn : String → PollOutcome
deriving DecidableEq, Repr

/-- The retry loop of convert: for attempt in range(max_retries), sleep the
current delay, GET the URL; 200 breaks, 404 with attempts left adds 5 to the
delay and retries, anything else returns the failure with that status.
remaining is the structural fuel max_retries - attempt; the fuel-0 leaf is
unreachable from convert because the last attempt always breaks or returns. -/
def pollLoop (env : Env) (url : String) (attempt remaining delay : Nat) :
    List Event × PollOutcome :=
  match remaining with
  | 0 => ([], PollOutcome.failure 0)
  | r + 1 =>
    match env.poll url attempt with
    | Except.error e => ([Event.sleep delay, Event.pollGet url], PollOutcome.exn e)
    | Except.ok resp =>
      if resp.status_code = 200 then
        ([Event.sleep delay, Event.pollGet url], PollOutcome.success resp)
      else if resp.status_code = 404 ∧ attempt < max_retries - 1 then
        let rest := pollLoop env url (attempt + 1) r (delay + 5)
        (Event.sleep delay :: Event.pollGet url :: rest.1, rest.2)
      else
        ([Event.sleep delay, Event.pollGet url], PollOutcome.failure resp.status_code)

/-- The tail of convert from the write of the output file onwards: write the
audio bytes and shape the success record, or fall into the except-all
handler when the write raises. -/
def writeStep (s : VTS) (env : Env) (output_wav_path text_result audio_url : String)
    (content : Bytes) (evs : List Event) : ConvertResult × List Event :=
  match env.write output_wav_path content with
  | WriteRes.openFail e => (catchAll e, evs)
  | WriteRes.writeFail e left =>
    (catchAll e, evs ++ [Event.fileTruncate output_wav_path left])
  | WriteRes.ok =>
    ({ success := true, error := none, text_result := some text_result,
       audio_path := some output_wav_path, audio_url := some audio_url,
       api_response := none, voice_used := some s.voice },
     evs ++ [Event.fileWrite output_wav_path content])

/-- VTS.convert: the full pipeline, returning the result record together
with the ordered list of observable side effects of the run. -/
def VTS.convert (s : VTS) (env : Env) (image_path output_wav_path : String)
    (wait_time : Nat) : ConvertResult × List Event :=
  match env.fs image_path with
  | none =>
    ({ success := false, error := some ("Image file not found: " ++ image_path),
       text_result := none, audio_path := none, audio_url := none,
       api_response := none, voice_used := none }, [])
  | some entry =>
    if entry.readable then
      let image_bytes := entry.content
      match env.vision s.gemini_client s.model image_bytes s.prompt with
      | Except.error e =>
        (catchAll e, [Event.readImage image_path,
          Event.visionCall s.gemini_client s.model image_bytes s.prompt])
      | Except.ok raw =>
        let text_result := pyStrip raw
        let headers : TTSHeaders := ⟨s.fpt_api_key, "", s.voice⟩
        let ev2 := [Event.readImage image_path,
          Event.visionCall s.gemini_client s.model image_bytes s.prompt,
          Event.ttsPostEv ttsEndpoint headers text_result]
        match env.ttsPost headers text_result with
        | Except.error e => (catchAll e, ev2)
        | Except.ok tts =>
          if tts.status_code ≠ 200 then
            ({ success := false,
               error := some ("TTS API request failed: " ++ toString tts.status_code),
               text_result := some text_result, audio_path := none,
               audio_url := none, api_response := none, voice_used := none }, ev2)
          else
            match tts.body with
            | Except.error e => (catchAll e, ev2)
            | Except.ok res_json =>
              match List.lookup "async" res_json with
              | none =>
                ({ success := false, error := some "No audio URL in TTS response",
                   text_result := some text_result, audio_path := none,
                   audio_url := none, api_response := some res_json,
                   voice_used := none }, ev2)
              | some audio_url =>
                if !pyStartsWith audio_url "http" then
                  ({ success := false,
                     error := some ("Invalid audio URL format: " ++ audio_url),
                     text_result := some text_result, audio_path := none,
                     audio_url := none, api_response := none,
                     voice_used := none }, ev2)
                else
                  match pollLoop env audio_url 0 max_retries wait_time with
                  | (pollEvs, PollOutcome.exn e) => (catchAll e, ev2 ++ pollEvs)
                  | (pollEvs, PollOutcome.failure st) =>
                    ({ success := false,
                       error := some ("Failed to download audio after " ++
                         toString max_retries ++ " attempts. Last status: " ++
                         toString st),
                       text_result := some text_result, audio_path := none,
                       audio_url := some audio_url, api_response := none,
                       voice_used := none }, ev2 ++ pollEvs)
                  | (pollEvs, PollOutcome.success resp) =>
                    let output_dir := dirname output_wav_path
                    if output_dir = "" then
                      writeStep s env output_wav_path text_result audio_url
                        resp.content (ev2 ++ pollEvs)
                    else
                      match env.makedirs output_dir with
                      | Except.error e =>
                        (catchAll e, ev2 ++ pollEvs ++ [Event.makedirsEv output_dir])
                      | Except.ok _ =>
                        writeStep s env output_wav_path text_result audio_url
                          resp.content (ev2 ++ pollEvs ++ [Event.makedirsEv output_dir])
    else
      (catchAll ("[Errno 13] Permission denied: " ++ image_path),
       [Event.readImage image_path])

/-- Seconds slept by one event. -/
def sleepAmt : Event → Nat
  | .sleep n => n
  | _ => 0

/-- Total seconds slept over a run. -/
def totalSlept (es : List Event) : Nat := (es.map sleepAmt).sum

/-- Events that are outbound network calls. -/
def isNetEvent : Event → Bool
  | .visionCall _ _ _ _ => true
  | .ttsPostEv _ _ _ => true
  | .pollGet _ => true
  | _ => false

/-- Number of outbound network calls in a run. -/
def netCount (es : List Event) : Nat := es.countP isNetEvent

/-- Events that are polling GET attempts. -/
def isPollGetEvent : Event → Bool
  | .pollGet _ => true
  | _ => false

/-- Number of polling attempts in a run. -/
def pollCount (es : List Event) : Nat := es.countP isPollGetEvent

/-- Events that are directory-creation calls. -/
def isMkdirEvent : Event → Bool
  | .makedirsEv _ => true
  | _ => false

/-- Number of directory-creation calls in a run. -/
def mkdirCount (es : List Event) : Nat := es.countP isMkdirEvent

/-- Events the polling loop can emit. -/
def isPollEvent : Event → Bool
  | .sleep _ => true
  | .pollGet _ => true
  | _ => false

/-- Effect of one event on the filesystem: a full write replaces the
content, a failed write leaves the truncated partial content, everything
else leaves the filesystem alone. -/
def applyEvent (fs : String → Option FileEntry) : Event → (String → Option FileEntry)
  | .fileWrite p c => fun q => if q = p then some ⟨true, c⟩ else fs q
  | .fileTruncate p l => fun q => if q = p then some ⟨true, l⟩ else fs q
  | _ => fs

/-- Filesystem after a run, given its event list. -/
def applyEvents (fs : String → Option FileEntry) (es : List Event) :
    String → Option FileEntry :=
  es.foldl applyEvent fs

/-- pat occurs as a contiguous run inside the character list l. -/
def hasSub (pat : List Char) : List Char → Bool
  | [] => pat.isEmpty
  | c :: t => pat.isPrefixOf (c :: t) || hasSub pat t

/-- The string s mentions pat somewhere. -/
def mentions (s pat : String) : Bool := hasSub pat.data s.data

/-- Events that change the filesystem. -/
def touchesFs : Event → Bool
  | .fileWrite _ _ => true
  | .fileTruncate _ _ => true
  | _ => false

/-- A pipeline object used by the concrete witness runs. -/
def s0 : VTS := VTS.init "gk" "fk" "banmai"

/-- Audio bytes used by the concrete witness runs. -/
def riff : Bytes := [82, 73, 70, 70, 1, 2, 3, 4]

/-- Environment of the fully successful witness run: one readable image,
a vision service answering with a document transcription, a TTS service
answering 200 with an async polling URL, a poll that is ready at once, and
a normally working local filesystem. -/
def envE2E : Env :=
  { fs := fun p => if p = "img.jpg" then some ⟨true, [10, 20]⟩ else none,
    vision := fun _ _ _ _ => Except.ok "Thể loại: Tài liệu\nNội dung: Hello",
    ttsPost := fun _ _ =>
      Except.ok ⟨200, Except.ok [("async", "http://example/audio123")]⟩,
    poll := fun _ _ => Except.ok ⟨200, riff⟩,
    makedirs := fun _ => Except.ok (),
    write := fun _ _ => WriteRes.ok }

/-- Like envE2E but the poll answers 404 on the first two attempts. -/
def env404x2 : Env :=
  { envE2E with poll := fun _ n =>
      if n < 2 then Except.ok ⟨404, []⟩ else Except.ok ⟨200, riff⟩ }

/-- Like envE2E but the poll answers 404 on every attempt. -/
def env404x3 : Env :=
  { envE2E with poll := fun _ _ => Except.ok ⟨404, []⟩ }

/-- Like envE2E but the image file exists and is not readable. -/
def envPerm : Env :=
  { envE2E with fs := fun p => if p = "img.jpg" then some ⟨false, []⟩ else none }

/-- Like envE2E but with no files at all. -/
def envNoFile : Env := { envE2E with fs := fun _ => none }

/-- Like envE2E but the TTS submission raises a network exception. -/
def envTtsExn : Env := { envE2E with ttsPost := fun _ _ => Except.error "boom" }

/-- Like envE2E but the TTS submission answers 500. -/
def envTts500 : Env :=
  { envE2E with ttsPost := fun _ _ => Except.ok ⟨500, Except.ok []⟩ }

/-- Like envE2E but the TTS submission answers 200 with a JSON body that
has no async field. -/
def envNoAsync : Env :=
  { envE2E with ttsPost := fun _ _ => Except.ok ⟨200, Except.ok [("error", "quota")]⟩ }

/-- Like envE2E but the TTS submission answers 200 with an async field
whose URL does not start with http. -/
def envBadUrl : Env :=
  { envE2E with ttsPost := fun _ _ => Except.ok ⟨200, Except.ok [("async", "ftp://x")]⟩ }

/-- Like envE2E but the vision call raises a network exception. -/
def envVisionExn : Env :=
  { envE2E with vision := fun _ _ _ _ => Except.error "deadline" }

/-- Like envE2E but writing the output file fails after open truncated it. -/
def envWriteFail : Env :=
  { envE2E with write := fun _ _ => WriteRes.writeFail "No space left on device" [] }

/-- Every event the polling loop emits is a sleep or a polling GET. -/
theorem pollLoop_events_poll (env : Env) (url : String) :
    ∀ r a d e, e ∈ (pollLoop env url a r d).1 → isPollEvent e = true := by
  intro r
  induction r with
  | zero => intro a d e he; simp [pollLoop] at he
  | succ n ih =>
    intro a d e he
    simp only [pollLoop] at he
    split at he
    · simp at he
      rcases he with h | h <;> simp [h, isPollEvent]
    · split at he
      · simp at he
        rcases he with h | h <;> simp [h, isPollEvent]
      · split at he
        · simp at he
          rcases he with h | h | h
          · simp [h, isPollEvent]
          · simp [h, isPollEvent]
          · exact ih _ _ _ h
        · simp at he
          rcases he with h | h <;> simp [h, isPollEvent]

/-- The polling loop makes at most remaining GET attempts. -/
theorem pollLoop_count_le (env : Env) (url : String) :
    ∀ r a d, ((pollLoop env url a r d).1.countP isPollGetEvent) ≤ r := by
  intro r
  induction r with
  | zero => intro a d; simp [pollLoop]
  | succ n ih =>
    intro a d
    simp only [pollLoop]
    split
    · simp [List.countP_cons, isPollGetEvent]
    · split
      · simp [List.countP_cons, isPollGetEvent]
      · split
        · simp [List.countP_cons, isPollGetEvent]
          have h5 := ih (a + 1) (d + 5)
          simp only [isPollGetEvent] at h5
          omega
        · simp [List.countP_cons, isPollGetEvent]

/-- applyEvents distributes over list append. -/
theorem applyEvents_append (fs : String → Option FileEntry) (a b : List Event) :
    applyEvents fs (a ++ b) = applyEvents (applyEvents fs a) b := by
  simp [applyEvents, List.foldl_append]

/-- An event that does not touch the filesystem leaves it unchanged. -/
theorem applyEvent_of_not_touches (fs : String → Option FileEntry) (e : Event)
    (h : touchesFs e = false) : applyEvent fs e = fs := by
  cases e <;> first | rfl | simp [touchesFs] at h

/-- A run segment with no filesystem events leaves the filesystem unchanged. -/
theorem applyEvents_of_not_touches (es : List Event) :
    ∀ fs : String → Option FileEntry, (∀ e ∈ es, touchesFs e = false) →
      applyEvents fs es = fs := by
  induction es with
  | nil => intro fs _; rfl
  | cons e t ih =>
    intro fs h
    have he : touchesFs e = false := h e (by simp)
    show applyEvents (applyEvent fs e) t = fs
    rw [applyEvent_of_not_touches fs e he]
    exact ih fs (fun x hx => h x (by simp [hx]))

/-- Poll events do not touch the filesystem. -/
theorem isPollEvent_not_touches (e : Event) (h : isPollEvent e = true) :
    touchesFs e = false := by
  cases e <;> simp [isPollEvent, touchesFs] at h ⊢

/-- Poll events are not directory-creation events. -/
theorem isPollEvent_not_mkdir (e : Event) (h : isPollEvent e = true) :
    isMkdirEvent e = false := by
  cases e <;> simp [isPollEvent, isMkdirEvent] at h ⊢

/-- If every poll before attempt i answers 404 and attempt i answers 200
with body B, with i below max_retries, the loop breaks with that response
and emits only sleep and polling GET events. -/
theorem pollLoop_break (env : Env) (u : String) (w : Nat) (B : Bytes) (i : Nat)
    (hi : i < max_retries)
    (h404 : ∀ k, k < i → ∃ c, env.poll u k = Except.ok ⟨404, c⟩)
    (h200 : env.poll u i = Except.ok ⟨200, B⟩) :
    ∃ evs, pollLoop env u 0 max_retries w = (evs, PollOutcome.success ⟨200, B⟩) ∧
      ∀ e ∈ evs, isPollEvent e = true := by
  simp only [max_retries] at hi
  interval_cases i
  · refine ⟨[Event.sleep w, Event.pollGet u], ?_, ?_⟩
    · simp [pollLoop, max_retries, h200]
    · intro e he; fin_cases he <;> rfl
  · obtain ⟨c0, h0⟩ := h404 0 (by omega)
    refine ⟨[Event.sleep w, Event.pollGet u, Event.sleep (w + 5), Event.pollGet u],
      ?_, ?_⟩
    · simp [pollLoop, max_retries, h0, h200]
    · intro e he; fin_cases he <;> rfl
  · obtain ⟨c0, h0⟩ := h404 0 (by omega)
    obtain ⟨c1, h1⟩ := h404 1 (by omega)
    refine ⟨[Event.sleep w, Event.pollGet u, Event.sleep (w + 5), Event.pollGet u,
      Event.sleep (w + 5 + 5), Event.pollGet u], ?_, ?_⟩
    · simp [pollLoop, max_retries, h0, h1, h200]
    · intro e he; fin_cases he <;> rfl

/-- Two 404 answers then a 200 answer: the loop breaks on the third attempt
after sleeping w, w+5 and w+10 seconds. -/
theorem pollLoop_404_404_200 (env : Env) (u : String) (w : Nat) (c0 c1 B : Bytes)
    (h0 : env.poll u 0 = Except.ok ⟨404, c0⟩)
    (h1 : env.poll u 1 = Except.ok ⟨404, c1⟩)
    (h2 : env.poll u 2 = Except.ok ⟨200, B⟩) :
    pollLoop env u 0 max_retries w =
      ([Event.sleep w, Event.pollGet u, Event.sleep (w + 5), Event.pollGet u,
        Event.sleep (w + 5 + 5), Event.pollGet u], PollOutcome.success ⟨200, B⟩) := by
  simp [pollLoop, max_retries, h0, h1, h2]

/-- Three 404 answers: the loop returns the download failure with last
status 404 after sleeping w, w+5 and w+10 seconds. -/
theorem pollLoop_404_404_404 (env : Env) (u : String) (w : Nat) (c0 c1 c2 : Bytes)
    (h0 : env.poll u 0 = Except.ok ⟨404, c0⟩)
    (h1 : env.poll u 1 = Except.ok ⟨404, c1⟩)
    (h2 : env.poll u 2 = Except.ok ⟨404, c2⟩) :
    pollLoop env u 0 max_retries w =
      ([Event.sleep w, Event.pollGet u, Event.sleep (w + 5), Event.pollGet u,
        Event.sleep (w + 5 + 5), Event.pollGet u], PollOutcome.failure 404) := by
  simp [pollLoop, max_retries, h0, h1, h2]

/-- A polling-loop run started by convert makes at most max_retries GET
attempts. -/
theorem pollLoop_res_count (env : Env) (u : String) (w : Nat) (evs : List Event)
    (o : PollOutcome) (h : pollLoop env u 0 max_retries w = (evs, o)) :
    List.countP isPollGetEvent evs ≤ max_retries := by
  have h2 := pollLoop_count_le env u max_retries 0 w
  rw [h] at h2
  exact h2

/-- Restatement of pollLoop_events_poll for a named loop result. -/
theorem pollLoop_res_events (env : Env) (u : String) (w : Nat) (evs : List Event)
    (o : PollOutcome) (h : pollLoop env u 0 max_retries w = (evs, o)) :
    ∀ e ∈ evs, isPollEvent e = true := by
  intro e he
  exact pollLoop_events_poll env u max_retries 0 w e (by rw [h]; exact he)

/-- No run of convert makes more than max_retries polling attempts. -/
theorem convert_pollCount_le (s : VTS) (env : Env) (ip op : String) (w : Nat) :
    pollCount (VTS.convert s env ip op w).2 ≤ max_retries := by
  simp only [VTS.convert, writeStep, pollCount]
  repeat' split
  all_goals simp_all [pollCount, List.countP_append, List.countP_cons, isPollGetEvent]
  all_goals exact pollLoop_res_count _ _ _ _ _ (by assumption)

/-- Claim C4: when the TTS submission returns HTTP 200 whose JSON body has
no async field, convert fails with exactly the error No audio URL in TTS
response, and text_result still carries the stripped analysis text from the
vision stage. -/
theorem C4_no_async_field (s : VTS) (env : Env) (ip op : String) (w : Nat)
    (ib : Bytes) (t : String) (j : JsonObj)
    (hfs : env.fs ip = some ⟨true, ib⟩)
    (hv : env.vision s.gemini_client s.model ib s.prompt = Except.ok t)
    (ht : env.ttsPost ⟨s.fpt_api_key, "", s.voice⟩ (pyStrip t) =
      Except.ok ⟨200, Except.ok j⟩)
    (hj : List.lookup "async" j = none) :
    (VTS.convert s env ip op w).1.success = false ∧
    (VTS.convert s env ip op w).1.error = some "No audio URL in TTS response" ∧
    (VTS.convert s env ip op w).1.text_result = some (pyStrip t) := by
  simp [VTS.convert, hfs, hv, ht, hj]

/-- Claim C1: in every run in which the image file exists and is readable,
the vision service returns text, the TTS submission returns HTTP 200 with a
JSON async field holding a URL that starts with http, a poll of that URL
answers HTTP 200 with body B within max_retries attempts (404 before that),
and the local directory creation and file write work, convert returns the
success record with error none and audio_path the given output path, and
the file at the output path afterwards holds exactly the bytes B, replacing
any previous content. -/
theorem C1_end_to_end (s : VTS) (env : Env) (ip op : String) (w : Nat)
    (ib : Bytes) (t : String) (j : JsonObj) (u : String) (i : Nat) (B : Bytes)
    (hfs : env.fs ip = some ⟨true, ib⟩)
    (hv : env.vision s.gemini_client s.model ib s.prompt = Except.ok t)
    (ht : env.ttsPost ⟨s.fpt_api_key, "", s.voice⟩ (pyStrip t) =
      Except.ok ⟨200, Except.ok j⟩)
    (hj : List.lookup "async" j = some u)
    (hu : pyStartsWith u "http" = true)
    (hi : i < max_retries)
    (h404 : ∀ k, k < i → ∃ c, env.poll u k = Except.ok ⟨404, c⟩)
    (h200 : env.poll u i = Except.ok ⟨200, B⟩)
    (hmk : dirname op ≠ "" → env.makedirs (dirname op) = Except.ok ())
    (hw : env.write op B = WriteRes.ok) :
    (VTS.convert s env ip op w).1 =
      { success := true, error := none, text_result := some (pyStrip t),
        audio_path := some op, audio_url := some u, api_response := none,
        voice_used := some s.voice } ∧
    applyEvents env.fs (VTS.convert s env ip op w).2 op = some ⟨true, B⟩ := by
  obtain ⟨evs, hpoll, hpollev⟩ := pollLoop_break env u w B i hi h404 h200
  by_cases hd : dirname op = ""
  · constructor
    · simp [VTS.convert, hfs, hv, ht, hj, hu, hpoll, hd, writeStep, hw]
    · simp [VTS.convert, hfs, hv, ht, hj, hu, hpoll, hd, writeStep, hw,
        applyEvents, applyEvent, List.foldl_append]
  · have hmk2 := hmk hd
    constructor
    · simp [VTS.convert, hfs, hv, ht, hj, hu, hpoll, hd, hmk2, writeStep, hw]
    · simp [VTS.convert, hfs, hv, ht, hj, hu, hpoll, hd, hmk2, writeStep, hw,
        applyEvents, applyEvent, List.foldl_append]

/-- Witness for C1: the fully successful concrete run. -/
theorem C1_end_to_end_witness :
    (VTS.convert s0 envE2E "img.jpg" "out/a.wav" 15).1 =
      { success := true, error := none,
        text_result := some (pyStrip "Thể loại: Tài liệu\nNội dung: Hello"),
        audio_path := some "out/a.wav",
        audio_url := some "http://example/audio123",
        api_response := none, voice_used := some s0.voice } ∧
    applyEvents envE2E.fs (VTS.convert s0 envE2E "img.jpg" "out/a.wav" 15).2
      "out/a.wav" = some ⟨true, riff⟩ :=
  C1_end_to_end s0 envE2E "img.jpg" "out/a.wav" 15 [10, 20]
    "Thể loại: Tài liệu\nNội dung: Hello" [("async", "http://example/audio123")]
    "http://example/audio123" 0 riff rfl rfl rfl rfl (by decide) (by decide)
    (fun k hk => absurd hk (Nat.not_lt_zero k)) rfl (fun _ => rfl) rfl

/-- Claim C2: in every run that reaches polling with wait time w: two 404
answers then a 200 give a successful run whose total slept time is
w plus w+5 plus w+10; three 404 answers give a failed run whose error names
the 3-attempt count and the last status 404; and no run ever makes more
than max_retries polling attempts. -/
theorem C2_retry_schedule (s : VTS) (env : Env) (ip op : String) (w : Nat)
    (ib : Bytes) (t : String) (j : JsonObj) (u : String)
    (hfs : env.fs ip = some ⟨true, ib⟩)
    (hv : env.vision s.gemini_client s.model ib s.prompt = Except.ok t)
    (ht : env.ttsPost ⟨s.fpt_api_key, "", s.voice⟩ (pyStrip t) =
      Except.ok ⟨200, Except.ok j⟩)
    (hj : List.lookup "async" j = some u)
    (hu : pyStartsWith u "http" = true) :
    (∀ c0 c1 B, env.poll u 0 = Except.ok ⟨404, c0⟩ →
      env.poll u 1 = Except.ok ⟨404, c1⟩ →
      env.poll u 2 = Except.ok ⟨200, B⟩ →
      (dirname op ≠ "" → env.makedirs (dirname op) = Except.ok ()) →
      env.write op B = WriteRes.ok →
      (VTS.convert s env ip op w).1.success = true ∧
      totalSlept (VTS.convert s env ip op w).2 = w + (w + 5) + (w + 10)) ∧
    (∀ c0 c1 c2, env.poll u 0 = Except.ok ⟨404, c0⟩ →
      env.poll u 1 = Except.ok ⟨404, c1⟩ →
      env.poll u 2 = Except.ok ⟨404, c2⟩ →
      (VTS.convert s env ip op w).1.success = false ∧
      (VTS.convert s env ip op w).1.error =
        some "Failed to download audio after 3 attempts. Last status: 404") ∧
    pollCount (VTS.convert s env ip op w).2 ≤ max_retries := by
  refine ⟨?_, ?_, convert_pollCount_le s env ip op w⟩
  · intro c0 c1 B h0 h1 h2 hmk hw
    have hpoll := pollLoop_404_404_200 env u w c0 c1 B h0 h1 h2
    by_cases hd : dirname op = ""
    · constructor
      · simp [VTS.convert, hfs, hv, ht, hj, hu, hpoll, hd, writeStep, hw]
      · simp [VTS.convert, hfs, hv, ht, hj, hu, hpoll, hd, writeStep, hw,
          totalSlept, sleepAmt]
        try omega
    · have hmk2 := hmk hd
      constructor
      · simp [VTS.convert, hfs, hv, ht, hj, hu, hpoll, hd, hmk2, writeStep, hw]
      · simp [VTS.convert, hfs, hv, ht, hj, hu, hpoll, hd, hmk2, writeStep, hw,
          totalSlept, sleepAmt]
        try omega
  · intro c0 c1 c2 h0 h1 h2
    have hpoll := pollLoop_404_404_404 env u w c0 c1 c2 h0 h1 h2
    constructor
    · simp [VTS.convert, hfs, hv, ht, hj, hu, hpoll]
    · simp [VTS.convert, hfs, hv, ht, hj, hu, hpoll]
      rfl

/-- Witness for C2: the concrete 404-404-200 and 404-404-404 runs. -/
theorem C2_retry_schedule_witness :
    ((VTS.convert s0 env404x2 "img.jpg" "o.wav" 15).1.success = true ∧
     totalSlept (VTS.convert s0 env404x2 "img.jpg" "o.wav" 15).2 =
       15 + (15 + 5) + (15 + 10)) ∧
    ((VTS.convert s0 env404x3 "img.jpg" "o.wav" 15).1.success = false ∧
     (VTS.convert s0 env404x3 "img.jpg" "o.wav" 15).1.error =
       some "Failed to download audio after 3 attempts. Last status: 404") ∧
    pollCount (VTS.convert s0 env404x2 "img.jpg" "o.wav" 15).2 ≤ max_retries := by
  refine ⟨?_, ?_, ?_⟩
  · exact (C2_retry_schedule s0 env404x2 "img.jpg" "o.wav" 15 [10, 20]
      "Thể loại: Tài liệu\nNội dung: Hello" [("async", "http://example/audio123")]
      "http://example/audio123" rfl rfl rfl rfl (by decide)).1 [] [] riff
      rfl rfl rfl (fun h => absurd rfl h) rfl
  · exact ((C2_retry_schedule s0 env404x3 "img.jpg" "o.wav" 15 [10, 20]
      "Thể loại: Tài liệu\nNội dung: Hello" [("async", "http://example/audio123")]
      "http://example/audio123" rfl rfl rfl rfl (by decide)).2.1) [] [] [] rfl rfl rfl
  · exact ((C2_retry_schedule s0 env404x2 "img.jpg" "o.wav" 15 [10, 20]
      "Thể loại: Tài liệu\nNội dung: Hello" [("async", "http://example/audio123")]
      "http://example/audio123" rfl rfl rfl rfl (by decide)).2.2)

/-- Witness for C4: the concrete run whose TTS response has no async
field. -/
theorem C4_no_async_field_witness :
    (VTS.convert s0 envNoAsync "img.jpg" "o.wav" 1).1.success = false ∧
    (VTS.convert s0 envNoAsync "img.jpg" "o.wav" 1).1.error =
      some "No audio URL in TTS response" ∧
    (VTS.convert s0 envNoAsync "img.jpg" "o.wav" 1).1.text_result =
      some (pyStrip "Thể loại: Tài liệu\nNội dung: Hello") :=
  C4_no_async_field s0 envNoAsync "img.jpg" "o.wav" 1 [10, 20]
    "Thể loại: Tài liệu\nNội dung: Hello" [("error", "quota")] rfl rfl rfl rfl

/-- Counterexample to C3 as stated: an image path that exists but is not
readable does not resolve to an existing readable file, yet the error of
the failed run is the generic unexpected-error message, which does not
mention not found (the run still makes zero network calls). -/
theorem C3_counterexample :
    envPerm.fs "img.jpg" = some ⟨false, []⟩ ∧
    (VTS.convert s0 envPerm "img.jpg" "o.wav" 1).1.success = false ∧
    netCount (VTS.convert s0 envPerm "img.jpg" "o.wav" 1).2 = 0 ∧
    (VTS.convert s0 envPerm "img.jpg" "o.wav" 1).1.error =
      some "Unexpected error: [Errno 13] Permission denied: img.jpg" ∧
    mentions "Unexpected error: [Errno 13] Permission denied: img.jpg"
      "not found" = false :=
  ⟨by decide, by decide, by decide, by decide, by decide⟩

/-- Claim C3 as amended: when the image path does not resolve to an
existing readable file, convert fails and makes zero network calls; when
the path does not exist at all, the error is the not-found message. -/
theorem C3_no_image_zero_network (s : VTS) (env : Env) (ip op : String) (w : Nat)
    (h : ∀ e, env.fs ip = some e → e.readable = false) :
    (VTS.convert s env ip op w).1.success = false ∧
    netCount (VTS.convert s env ip op w).2 = 0 ∧
    (env.fs ip = none →
      (VTS.convert s env ip op w).1.error = some ("Image file not found: " ++ ip)) := by
  cases hfs : env.fs ip with
  | none =>
    refine ⟨?_, ?_, ?_⟩ <;> simp [VTS.convert, hfs, netCount]
  | some entry =>
    have hr := h entry hfs
    refine ⟨?_, ?_, ?_⟩
    · simp [VTS.convert, hfs, hr, catchAll]
    · simp [VTS.convert, hfs, hr, netCount, isNetEvent, List.countP_cons]
    · intro hnone
      exact Option.noConfusion hnone

/-- Witness for the amended C3: the concrete run on an empty filesystem. -/
theorem C3_no_image_zero_network_witness :
    (VTS.convert s0 envNoFile "img.jpg" "o.wav" 1).1.success = false ∧
    netCount (VTS.convert s0 envNoFile "img.jpg" "o.wav" 1).2 = 0 ∧
    (envNoFile.fs "img.jpg" = none →
      (VTS.convert s0 envNoFile "img.jpg" "o.wav" 1).1.error =
        some ("Image file not found: " ++ "img.jpg")) :=
  C3_no_image_zero_network s0 envNoFile "img.jpg" "o.wav" 1
    (fun _ he => Option.noConfusion he)

/-- Counterexample to C5 as stated: a run whose vision stage completes with
analysis text and whose TTS submission then raises falls into the catch-all
handler, which returns text_result none, discarding the analysis text. -/
theorem C5_counterexample :
    envTtsExn.vision s0.gemini_client s0.model [10, 20] s0.prompt =
      Except.ok "Thể loại: Tài liệu\nNội dung: Hello" ∧
    Event.visionCall s0.gemini_client s0.model [10, 20] s0.prompt ∈
      (VTS.convert s0 envTtsExn "img.jpg" "o.wav" 1).2 ∧
    (VTS.convert s0 envTtsExn "img.jpg" "o.wav" 1).1.success = false ∧
    (VTS.convert s0 envTtsExn "img.jpg" "o.wav" 1).1.error =
      some "Unexpected error: boom" ∧
    (VTS.convert s0 envTtsExn "img.jpg" "o.wav" 1).1.text_result = none :=
  ⟨rfl, by decide, by decide, by decide, by decide⟩

/-- Claim C5 as amended: after a completed vision stage, each of the four
named failure branches (TTS non-200, missing async field, invalid URL,
download failure) carries the stripped analysis text in text_result, while
the catch-all unexpected-error result returns text_result none, discarding
it. -/
theorem C5_partial_results (s : VTS) (env : Env) (ip op : String) (w : Nat)
    (ib : Bytes) (t : String)
    (hfs : env.fs ip = some ⟨true, ib⟩)
    (hv : env.vision s.gemini_client s.model ib s.prompt = Except.ok t) :
    (∀ st b, env.ttsPost ⟨s.fpt_api_key, "", s.voice⟩ (pyStrip t) =
        Except.ok ⟨st, b⟩ → st ≠ 200 →
      (VTS.convert s env ip op w).1.text_result = some (pyStrip t)) ∧
    (∀ j, env.ttsPost ⟨s.fpt_api_key, "", s.voice⟩ (pyStrip t) =
        Except.ok ⟨200, Except.ok j⟩ → List.lookup "async" j = none →
      (VTS.convert s env ip op w).1.text_result = some (pyStrip t)) ∧
    (∀ j u, env.ttsPost ⟨s.fpt_api_key, "", s.voice⟩ (pyStrip t) =
        Except.ok ⟨200, Except.ok j⟩ → List.lookup "async" j = some u →
        pyStartsWith u "http" = false →
      (VTS.convert s env ip op w).1.text_result = some (pyStrip t)) ∧
    (∀ j u c0 c1 c2, env.ttsPost ⟨s.fpt_api_key, "", s.voice⟩ (pyStrip t) =
        Except.ok ⟨200, Except.ok j⟩ → List.lookup "async" j = some u →
        pyStartsWith u "http" = true →
        env.poll u 0 = Except.ok ⟨404, c0⟩ → env.poll u 1 = Except.ok ⟨404, c1⟩ →
        env.poll u 2 = Except.ok ⟨404, c2⟩ →
      (VTS.convert s env ip op w).1.text_result = some (pyStrip t)) ∧
    (∀ e, env.ttsPost ⟨s.fpt_api_key, "", s.voice⟩ (pyStrip t) = Except.error e →
      (VTS.convert s env ip op w).1.text_result = none ∧
      (VTS.convert s env ip op w).1.error = some ("Unexpected error: " ++ e)) := by
  refine ⟨?_, ?_, ?_, ?_, ?_⟩
  · intro st b ht hst
    simp [VTS.convert, hfs, hv, ht, hst]
  · intro j ht hj
    simp [VTS.convert, hfs, hv, ht, hj]
  · intro j u ht hj hu
    simp [VTS.convert, hfs, hv, ht, hj, hu]
  · intro j u c0 c1 c2 ht hj hu h0 h1 h2
    have hpoll := pollLoop_404_404_404 env u w c0 c1 c2 h0 h1 h2
    simp [VTS.convert, hfs, hv, ht, hj, hu, hpoll]
  · intro e ht
    constructor <;> simp [VTS.convert, hfs, hv, ht, catchAll]

/-- Witness for the amended C5: one concrete run per failure branch. -/
theorem C5_partial_results_witness :
    (VTS.convert s0 envTts500 "img.jpg" "o.wav" 1).1.text_result =
      some (pyStrip "Thể loại: Tài liệu\nNội dung: Hello") ∧
    (VTS.convert s0 envNoAsync "img.jpg" "o.wav" 1).1.text_result =
      some (pyStrip "Thể loại: Tài liệu\nNội dung: Hello") ∧
    (VTS.convert s0 envBadUrl "img.jpg" "o.wav" 1).1.text_result =
      some (pyStrip "Thể loại: Tài liệu\nNội dung: Hello") ∧
    (VTS.convert s0 env404x3 "img.jpg" "o.wav" 1).1.text_result =
      some (pyStrip "Thể loại: Tài liệu\nNội dung: Hello") ∧
    (VTS.convert s0 envTtsExn "img.jpg" "o.wav" 1).1.text_result = none ∧
    (VTS.convert s0 envTtsExn "img.jpg" "o.wav" 1).1.error =
      some ("Unexpected error: " ++ "boom") := by
  refine ⟨?_, ?_, ?_, ?_, ?_⟩
  · exact (C5_partial_results s0 envTts500 "img.jpg" "o.wav" 1 [10, 20]
      "Thể loại: Tài liệu\nNội dung: Hello" rfl rfl).1 500 (Except.ok []) rfl
      (by decide)
  · exact (C5_partial_results s0 envNoAsync "img.jpg" "o.wav" 1 [10, 20]
      "Thể loại: Tài liệu\nNội dung: Hello" rfl rfl).2.1 [("error", "quota")] rfl rfl
  · exact (C5_partial_results s0 envBadUrl "img.jpg" "o.wav" 1 [10, 20]
      "Thể loại: Tài liệu\nNội dung: Hello" rfl rfl).2.2.1 [("async", "ftp://x")]
      "ftp://x" rfl rfl (by decide)
  · exact (C5_partial_results s0 env404x3 "img.jpg" "o.wav" 1 [10, 20]
      "Thể loại: Tài liệu\nNội dung: Hello" rfl rfl).2.2.2.1
      [("async", "http://example/audio123")] "http://example/audio123" [] [] []
      rfl rfl (by decide) rfl rfl rfl
  · exact (C5_partial_results s0 envTtsExn "img.jpg" "o.wav" 1 [10, 20]
      "Thể loại: Tài liệu\nNội dung: Hello" rfl rfl).2.2.2.2 "boom" rfl

/-- Claim C10: the mutators change only their own field: set_voice sets
voice and leaves prompt, model and both credentials unchanged, and
set_prompt sets prompt and leaves voice, model and both credentials
unchanged, for arbitrary strings without validation. -/
theorem C10_mutators_frame (s : VTS) (v p : String) :
    ((s.set_voice v).voice = v ∧ (s.set_voice v).prompt = s.prompt ∧
     (s.set_voice v).model = s.model ∧
     (s.set_voice v).gemini_client = s.gemini_client ∧
     (s.set_voice v).fpt_api_key = s.fpt_api_key) ∧
    ((s.set_prompt p).prompt = p ∧ (s.set_prompt p).voice = s.voice ∧
     (s.set_prompt p).model = s.model ∧
     (s.set_prompt p).gemini_client = s.gemini_client ∧
     (s.set_prompt p).fpt_api_key = s.fpt_api_key) :=
  ⟨⟨rfl, rfl, rfl, rfl, rfl⟩, ⟨rfl, rfl, rfl, rfl, rfl⟩⟩

/-- Claim C6: every run of convert returns a uniform record in which an
error message is present exactly when success is false (the embedding of
convert is a total function, so no exception escapes to the caller); in
particular a raised vision call and a failed output write both land in the
catch-all record carrying the exception text. -/
theorem C6_failure_boundary (s : VTS) (env : Env) (ip op : String) (w : Nat) :
    ((VTS.convert s env ip op w).1.error.isSome =
      !(VTS.convert s env ip op w).1.success) ∧
    (∀ ib e, env.fs ip = some ⟨true, ib⟩ →
      env.vision s.gemini_client s.model ib s.prompt = Except.error e →
      (VTS.convert s env ip op w).1 = catchAll e) ∧
    (∀ ib t j u B e left, env.fs ip = some ⟨true, ib⟩ →
      env.vision s.gemini_client s.model ib s.prompt = Except.ok t →
      env.ttsPost ⟨s.fpt_api_key, "", s.voice⟩ (pyStrip t) =
        Except.ok ⟨200, Except.ok j⟩ →
      List.lookup "async" j = some u → pyStartsWith u "http" = true →
      env.poll u 0 = Except.ok ⟨200, B⟩ →
      (dirname op ≠ "" → env.makedirs (dirname op) = Except.ok ()) →
      env.write op B = WriteRes.writeFail e left →
      (VTS.convert s env ip op w).1 = catchAll e) := by
  refine ⟨?_, ?_, ?_⟩
  · simp only [VTS.convert, writeStep]
    repeat' split
    all_goals simp [catchAll]
  · intro ib e hfs hv
    simp [VTS.convert, hfs, hv]
  · intro ib t j u B e left hfs hv ht hj hu h200 hmk hw
    obtain ⟨evs, hpoll, _⟩ := pollLoop_break env u w B 0 (by decide)
      (fun k hk => absurd hk (Nat.not_lt_zero k)) h200
    by_cases hd : dirname op = ""
    · simp [VTS.convert, hfs, hv, ht, hj, hu, hpoll, hd, writeStep, hw]
    · simp [VTS.convert, hfs, hv, ht, hj, hu, hpoll, hd, hmk hd, writeStep, hw]

/-- Witness for C6: the concrete raised-vision and failed-write runs. -/
theorem C6_failure_boundary_witness :
    ((VTS.convert s0 envVisionExn "img.jpg" "o.wav" 1).1.error.isSome =
      !(VTS.convert s0 envVisionExn "img.jpg" "o.wav" 1).1.success) ∧
    (VTS.convert s0 envVisionExn "img.jpg" "o.wav" 1).1 = catchAll "deadline" ∧
    (VTS.convert s0 envWriteFail "img.jpg" "o.wav" 1).1 =
      catchAll "No space left on device" :=
  ⟨(C6_failure_boundary s0 envVisionExn "img.jpg" "o.wav" 1).1,
   (C6_failure_boundary s0 envVisionExn "img.jpg" "o.wav" 1).2.1 [10, 20]
     "deadline" rfl rfl,
   (C6_failure_boundary s0 envWriteFail "img.jpg" "o.wav" 1).2.2 [10, 20]
     "Thể loại: Tài liệu\nNội dung: Hello" [("async", "http://example/audio123")]
     "http://example/audio123" riff "No space left on device" [] rfl rfl rfl rfl
     (by decide) rfl (fun h => absurd rfl h) rfl⟩

/-- A list with no directory-creation events has mkdirCount zero. -/
theorem mkdirCount_eq_zero (es : List Event) (h : ∀ e ∈ es, isMkdirEvent e = false) :
    mkdirCount es = 0 :=
  List.countP_eq_zero.mpr (by simpa using h)

/-- Claim C7: in every successful run, when the output path has a directory
component that directory is passed to one recursive directory creation call
placed immediately before the write of the audio file, and when the output
path has no directory component no directory-creation call is made and the
file is still written at that path. -/
theorem C7_output_directory (s : VTS) (env : Env) (ip op : String) (w : Nat)
    (hs : (VTS.convert s env ip op w).1.success = true) :
    (dirname op = "" → mkdirCount (VTS.convert s env ip op w).2 = 0 ∧
      ∃ pre c, (VTS.convert s env ip op w).2 = pre ++ [Event.fileWrite op c]) ∧
    (dirname op ≠ "" → ∃ pre c, (VTS.convert s env ip op w).2 =
      pre ++ [Event.makedirsEv (dirname op), Event.fileWrite op c]) := by
  rcases hC : VTS.convert s env ip op w with ⟨r, evts⟩
  rw [hC] at hs
  dsimp only at hs ⊢
  simp only [VTS.convert, writeStep] at hC
  repeat' split at hC
  all_goals (injection hC with h1 h2)
  all_goals subst h1
  all_goals subst h2
  all_goals try simp [catchAll] at hs
  · rename_i xp pollEvs resp hpoll hd xw hw
    have hall := pollLoop_res_events _ _ _ _ _ hpoll
    have hz : List.countP isMkdirEvent pollEvs = 0 :=
      List.countP_eq_zero.mpr (fun e he => by
        simp [isPollEvent_not_mkdir e (hall e he)])
    refine ⟨fun _ => ⟨?_, _, _, rfl⟩, fun hnd => absurd hd hnd⟩
    simp [mkdirCount, List.countP_append, List.countP_cons, isMkdirEvent, hz]
  · exact ⟨fun hd => absurd hd (by assumption), fun _ =>
      ⟨_, _, List.append_assoc _ _ _⟩⟩

/-- Witness for C7: the two concrete successful runs, one output path with
a directory component and one without. -/
theorem C7_output_directory_witness :
    (dirname "o.wav" = "" →
      mkdirCount (VTS.convert s0 envE2E "img.jpg" "o.wav" 15).2 = 0 ∧
      ∃ pre c, (VTS.convert s0 envE2E "img.jpg" "o.wav" 15).2 =
        pre ++ [Event.fileWrite "o.wav" c]) ∧
    (dirname "out/a.wav" ≠ "" →
      ∃ pre c, (VTS.convert s0 envE2E "img.jpg" "out/a.wav" 15).2 =
        pre ++ [Event.makedirsEv (dirname "out/a.wav"),
          Event.fileWrite "out/a.wav" c]) :=
  ⟨(C7_output_directory s0 envE2E "img.jpg" "o.wav" 15 (by decide)).1,
   (C7_output_directory s0 envE2E "img.jpg" "out/a.wav" 15 (by decide)).2⟩

/-- Claim C8: after set_voice v, every TTS submission event of a convert
run carries v in its voice header, and a successful run reports voice_used
v. -/
theorem C8_set_voice_roundtrip (s : VTS) (v : String) (env : Env) (ip op : String)
    (w : Nat) :
    (∀ u hd b, Event.ttsPostEv u hd b ∈ (VTS.convert (s.set_voice v) env ip op w).2 →
      hd.voice = v) ∧
    ((VTS.convert (s.set_voice v) env ip op w).1.success = true →
      (VTS.convert (s.set_voice v) env ip op w).1.voice_used = some v) := by
  constructor
  · intro u hd b hmem
    simp only [VTS.convert, writeStep, VTS.set_voice] at hmem
    repeat' split at hmem
    all_goals try simp at hmem
    all_goals try (obtain ⟨-, rfl, -⟩ := hmem; rfl)
    all_goals exact absurd (pollLoop_res_events _ _ _ _ _ (by assumption) _
      (by assumption)) (by simp [isPollEvent])
  · intro hs
    rcases hC : VTS.convert (s.set_voice v) env ip op w with ⟨r, evts⟩
    rw [hC] at hs
    dsimp only at hs ⊢
    simp only [VTS.convert, writeStep, VTS.set_voice] at hC
    repeat' split at hC
    all_goals (injection hC with h1 h2)
    all_goals subst h1
    all_goals subst h2
    all_goals try simp [catchAll] at hs
    all_goals rfl

/-- Witness for C8: the concrete run after switching the voice from banmai
to lannhi. -/
theorem C8_set_voice_roundtrip_witness :
    Event.ttsPostEv ttsEndpoint ⟨"fk", "", "lannhi"⟩
      (pyStrip "Thể loại: Tài liệu\nNội dung: Hello") ∈
      (VTS.convert (s0.set_voice "lannhi") envE2E "img.jpg" "o.wav" 15).2 ∧
    (⟨"fk", "", "lannhi"⟩ : TTSHeaders).voice = "lannhi" ∧
    (VTS.convert (s0.set_voice "lannhi") envE2E "img.jpg" "o.wav" 15).1.voice_used =
      some "lannhi" := by
  refine ⟨by decide, ?_, ?_⟩
  · exact (C8_set_voice_roundtrip s0 "lannhi" envE2E "img.jpg" "o.wav" 15).1
      ttsEndpoint ⟨"fk", "", "lannhi"⟩
      (pyStrip "Thể loại: Tài liệu\nNội dung: Hello") (by decide)
  · exact (C8_set_voice_roundtrip s0 "lannhi" envE2E "img.jpg" "o.wav" 15).2
      (by decide)

/-- A failed run reports no audio path. -/
theorem convert_fail_audio_path (s : VTS) (env : Env) (ip op : String) (w : Nat)
    (hf : (VTS.convert s env ip op w).1.success = false) :
    (VTS.convert s env ip op w).1.audio_path = none := by
  rcases hC : VTS.convert s env ip op w with ⟨r, evts⟩
  rw [hC] at hf
  dsimp only at hf ⊢
  simp only [VTS.convert, writeStep] at hC
  repeat' split at hC
  all_goals (injection hC with h1 h2)
  all_goals subst h1
  all_goals subst h2
  all_goals first | rfl | simp [catchAll] at hf

/-- A failed run performs no successful write of any file. -/
theorem convert_fail_no_write (s : VTS) (env : Env) (ip op : String) (w : Nat)
    (hf : (VTS.convert s env ip op w).1.success = false) :
    ∀ p c, Event.fileWrite p c ∉ (VTS.convert s env ip op w).2 := by
  intro p c hmem
  rcases hC : VTS.convert s env ip op w with ⟨r, evts⟩
  rw [hC] at hf hmem
  dsimp only at hf hmem
  simp only [VTS.convert, writeStep] at hC
  repeat' split at hC
  all_goals (injection hC with h1 h2)
  all_goals subst h1
  all_goals subst h2
  all_goals try simp [catchAll] at hf
  all_goals try simp at hmem
  all_goals have hp := pollLoop_res_events _ _ _ _ _ (by assumption) _ hmem
  all_goals simp [isPollEvent] at hp

/-- A run segment with neither full writes nor truncations leaves the
filesystem unchanged. -/
theorem applyEvents_id_of_no_write (es : List Event)
    (h1 : ∀ p c, Event.fileWrite p c ∉ es)
    (h2 : ∀ p l, Event.fileTruncate p l ∉ es)
    (fs : String → Option FileEntry) : applyEvents fs es = fs :=
  applyEvents_of_not_touches es fs (fun e he => by
    cases e with
    | fileWrite p c => exact absurd he (h1 p c)
    | fileTruncate p l => exact absurd he (h2 p l)
    | readImage p => rfl
    | visionCall a b c d => rfl
    | ttsPostEv a b c => rfl
    | sleep n => rfl
    | pollGet u => rfl
    | makedirsEv d => rfl)

/-- Claim C9 as amended: every failed run reports audio_path none and never
performs a successful write; moreover, unless the failure is the output
write itself (observable as a truncation event), the filesystem is left
exactly as it was before the call. -/
theorem C9_no_write_on_failure (s : VTS) (env : Env) (ip op : String) (w : Nat)
    (hf : (VTS.convert s env ip op w).1.success = false) :
    (VTS.convert s env ip op w).1.audio_path = none ∧
    (∀ p c, Event.fileWrite p c ∉ (VTS.convert s env ip op w).2) ∧
    ((∀ p l, Event.fileTruncate p l ∉ (VTS.convert s env ip op w).2) →
      ∀ q, applyEvents env.fs (VTS.convert s env ip op w).2 q = env.fs q) :=
  ⟨convert_fail_audio_path s env ip op w hf,
   convert_fail_no_write s env ip op w hf,
   fun hnt q => congrFun (applyEvents_id_of_no_write _
     (convert_fail_no_write s env ip op w hf) hnt env.fs) q⟩

/-- Witness for the amended C9: the concrete run whose polls all answer
404; the file at the output path is untouched. -/
theorem C9_no_write_on_failure_witness :
    (VTS.convert s0 env404x3 "img.jpg" "o.wav" 1).1.audio_path = none ∧
    Event.fileWrite "o.wav" riff ∉ (VTS.convert s0 env404x3 "img.jpg" "o.wav" 1).2 ∧
    applyEvents env404x3.fs (VTS.convert s0 env404x3 "img.jpg" "o.wav" 1).2 "o.wav" =
      env404x3.fs "o.wav" := by
  have h := C9_no_write_on_failure s0 env404x3 "img.jpg" "o.wav" 1 (by decide)
  have hev : (VTS.convert s0 env404x3 "img.jpg" "o.wav" 1).2 =
      [Event.readImage "img.jpg",
       Event.visionCall "gk" "gemini-2.5-flash" [10, 20] s0.prompt,
       Event.ttsPostEv ttsEndpoint ⟨"fk", "", "banmai"⟩
         "Thể loại: Tài liệu\nNội dung: Hello",
       Event.sleep 1, Event.pollGet "http://example/audio123",
       Event.sleep 6, Event.pollGet "http://example/audio123",
       Event.sleep 11, Event.pollGet "http://example/audio123"] := by decide
  refine ⟨h.1, h.2.1 "o.wav" riff, h.2.2 ?_ "o.wav"⟩
  intro p l hm
  rw [hev] at hm
  simp at hm

/-- Counterexample to C9 as stated: a run in which the output write itself
raises returns success false through the catch-all, yet the file at the
output path was truncated by the failed write, so the filesystem content
is not what it was before the call. -/
theorem C9_counterexample :
    (VTS.convert s0 envWriteFail "img.jpg" "o.wav" 1).1.success = false ∧
    envWriteFail.fs "o.wav" = none ∧
    applyEvents envWriteFail.fs (VTS.convert s0 envWriteFail "img.jpg" "o.wav" 1).2
      "o.wav" = some ⟨true, []⟩ :=
  ⟨by decide, by decide, by decide⟩

end VisionAid
